import Mathlib

/-!
Verification of the `generate` routine of `dmg/smiles_vae/generate.py`.

The routine loads a VAE checkpoint, optimizes one latent vector, decodes
`num_molecules` SMILES strings from it, labels each with a validity flag
obtained by parsing it, scores a property on it, and writes the result
table to a CSV file once at the end, returning the same data in memory.

The collaborators (`torch.load`, the VAE class, `optimize_latent_vector`,
`decode_latent_vector_sample`, `Chem.MolFromSmiles`, `compute_property`,
pandas CSV writing) are modelled as an explicit environment of opaque
functions, and every externally visible action of the routine is recorded
in an event trace, so ordering and persistence properties are statable.
-/

namespace DMG

/-- Modelled from the spec: the process-wide run configuration (`Config()`),
providing the embedding size, latent dimensionality and device selection.
The `Config` class lives in `utils/config.py`, not part of the sources. -/
structure Config where
  embed_size : Nat
  latent_dim : Nat
  device : String
deriving DecidableEq

/-- The metadata checkpoint `model_info.pth`: vocabulary, the symbol/index
mappings, the designated start/end/pad symbols and the maximum length.
The symbol-to-index mapping is an association list modelling the Python
dict (lookup of an absent key is a `KeyError`). -/
structure ModelInfo where
  vocab : List String
  char_to_idx : List (String × Nat)
  idx_to_char : List (Nat × String)
  start_token : String
  end_token : String
  pad_token : String
  max_length : Int
deriving DecidableEq

/-- A latent vector: a point of the model's embedding space. -/
abbrev LatentVec := List Rat

/-- A weights checkpoint (`vae_model.pth`): an opaque state dict. -/
abbrev Weights := List (String × List Rat)

/-- The reconstructed network architecture: the VAE records exactly the
construction parameters the call site passes,
`VAE(vocab_size, embed_size, latent_dim, max_length - 1, pad_idx)`. -/
structure VAE where
  vocab_size : Nat
  embed_size : Nat
  latent_dim : Nat
  decode_horizon : Int
  pad_idx : Nat
deriving DecidableEq

/-- An opaque parsed-molecule object returned by the chemistry-structure
parser (`Chem.MolFromSmiles`); a non-`none` result is truthy in Python. -/
structure Mol where
  handle : Nat
deriving DecidableEq

/-- Errors a collaborator may raise; they propagate to the caller. -/
inductive Err where
  | loadError (msg : String)
  | keyError (key : String)
  | runtimeError (msg : String)
deriving DecidableEq

/-- One data row of the written CSV file. -/
structure Row where
  smiles : String
  validity : String
  qed : Rat
deriving DecidableEq

/-- The written CSV file: a header line and the data rows. -/
structure CsvFile where
  header : String
  rows : List Row
deriving DecidableEq

/-- The in-memory result mapping built by the routine: the Python dict
`data` with keys `Generated_SMILES`, `Validity`, `QED` in insertion
order, each holding an ordered sequence. -/
structure DataDict where
  generated_SMILES : List String
  validity : List String
  qed : List Rat
deriving DecidableEq

/-- Externally visible actions of one run, in order. -/
inductive Event where
  | torchLoad (path : String)
  | randn (rows cols : Nat)
  | optimize (steps : Nat) (lr : Rat)
  | decodeCall (z : LatentVec) (callIdx : Nat)
  | writeCsv (path : String) (file : CsvFile)
  | printMsg (msg : String)
deriving DecidableEq

/-- Python dict lookup on the association list (`char_to_idx[pad_token]`):
`none` models a `KeyError`. -/
def dictLookup (d : List (String × Nat)) (k : String) : Option Nat :=
  (d.find? (fun p => p.1 == k)).map (fun p => p.2)

/-- `os.path.join` for the ordinary relative-component case. -/
def osPathJoin (a b : String) : String := a ++ "/" ++ b

/-- Pairs the three columns into rows, as `pd.DataFrame` does for the
equal-length columns this routine builds. -/
def zipRows : List String → List String → List Rat → List Row
  | s :: ss, v :: vs, q :: qs => ⟨s, v, q⟩ :: zipRows ss vs qs
  | _, _, _ => []

/-- Models `pd.DataFrame(data); df.to_csv(output_path, index=False)`:
the header is the dict keys in insertion order joined by commas, followed
by one line per row. -/
def dataDictToCsv (d : DataDict) : CsvFile :=
  { header := String.intercalate "," ["Generated_SMILES", "Validity", "QED"]
  , rows := zipRows d.generated_SMILES d.validity d.qed }

/-- The three `append` statements of one loop iteration. -/
def pushRow (acc : DataDict) (s v : String) (q : Rat) : DataDict :=
  { generated_SMILES := acc.generated_SMILES ++ [s]
  , validity := acc.validity ++ [v]
  , qed := acc.qed ++ [q] }

/-- The environment of collaborators consumed by `generate`. `torch`,
RDKit and pandas are external libraries; `optimize_latent_vector`,
`decode_latent_vector_sample` and `compute_property` are repo modules
absent from the sources, modelled from the spec as opaque functions:
the decoder is read-only in its latent-vector argument and may draw
per-call internal randomness (its last argument indexes the call), and
the property scorer totally maps a string to a score (an unparseable
string is a normal data point, not an exception). -/
structure Env where
  config : Config
  torchLoadInfo : String → Except Err ModelInfo
  torchLoadWeights : String → Except Err Weights
  loadStateDict : VAE → Weights → Except Err Unit
  randn : Nat → Nat → LatentVec
  optimizeLatentVector : VAE → LatentVec → Nat → Rat → Except Err LatentVec
  decodeLatentVectorSample :
    VAE → LatentVec → List (String × Nat) → List (Nat × String) →
      String → String → String → Nat → Except Err String
  molFromSmiles : String → Option Mol
  computeProperty : String → Rat

/-- The validity label computed for a decoded string:
`'Valid' if mol else 'Invalid'`. -/
def validLabel (env : Env) (s : String) : String :=
  if (env.molFromSmiles s).isSome then "Valid" else "Invalid"

/-- The architecture reconstruction at the call site:
`VAE(vocab_size, config.embed_size, config.latent_dim, max_length - 1, char_to_idx[pad_token])`. -/
def mkModel (env : Env) (mi : ModelInfo) (padIdx : Nat) : VAE :=
  ⟨mi.vocab.length, env.config.embed_size, env.config.latent_dim,
    mi.max_length - 1, padIdx⟩

/-- The `for _ in range(num_molecules)` loop: `k` iterations remain and
`i` calls were already made; each iteration decodes one string from `z`,
parses it, scores it, and appends one record. Returns the loop's outcome
and the decode-call events it performed. -/
def genLoop (env : Env) (model : VAE) (mi : ModelInfo) (z : LatentVec) :
    Nat → Nat → DataDict → Except Err DataDict × List Event
  | 0, _, acc => (Except.ok acc, [])
  | k + 1, i, acc =>
    match env.decodeLatentVectorSample model z mi.char_to_idx mi.idx_to_char
        mi.start_token mi.end_token env.config.device i with
    | Except.error e => (Except.error e, [Event.decodeCall z i])
    | Except.ok smiles =>
      let valid := validLabel env smiles
      let properties := env.computeProperty smiles
      let rest := genLoop env model mi z k (i + 1) (pushRow acc smiles valid properties)
      (rest.1, Event.decodeCall z i :: rest.2)

/-- The `generate(num_molecules, model_dir, output_path)` routine. The
count is an `Int` (`range` of a non-positive count is empty). The result
is the returned dict (or the propagated error) together with the trace
of externally visible actions. -/
def generate (env : Env) (num_molecules : Int) (model_dir output_path : String) :
    Except Err DataDict × List Event :=
  let infoPath := osPathJoin model_dir "model_info.pth"
  match env.torchLoadInfo infoPath with
  | Except.error e => (Except.error e, [Event.torchLoad infoPath])
  | Except.ok model_info =>
    match dictLookup model_info.char_to_idx model_info.pad_token with
    | none =>
        (Except.error (Err.keyError model_info.pad_token), [Event.torchLoad infoPath])
    | some padIdx =>
      let model := mkModel env model_info padIdx
      let weightsPath := osPathJoin model_dir "vae_model.pth"
      match env.torchLoadWeights weightsPath with
      | Except.error e =>
          (Except.error e, [Event.torchLoad infoPath, Event.torchLoad weightsPath])
      | Except.ok weights =>
        match env.loadStateDict model weights with
        | Except.error e =>
            (Except.error e, [Event.torchLoad infoPath, Event.torchLoad weightsPath])
        | Except.ok _ =>
          let initial_z := env.randn 1 env.config.latent_dim
          match env.optimizeLatentVector model initial_z 100 (1 / 100 : Rat) with
          | Except.error e =>
              (Except.error e,
                [Event.torchLoad infoPath, Event.torchLoad weightsPath,
                  Event.randn 1 env.config.latent_dim,
                  Event.optimize 100 (1 / 100 : Rat)])
          | Except.ok optimized_z =>
            let res := genLoop env model model_info optimized_z
                num_molecules.toNat 0 ⟨[], [], []⟩
            let pre := [Event.torchLoad infoPath, Event.torchLoad weightsPath,
                Event.randn 1 env.config.latent_dim,
                Event.optimize 100 (1 / 100 : Rat)]
            match res.1 with
            | Except.error e => (Except.error e, pre ++ res.2)
            | Except.ok data =>
                (Except.ok data,
                  pre ++ res.2 ++
                    [Event.writeCsv output_path (dataDictToCsv data),
                      Event.printMsg ("Generated molecules saved to " ++ output_path)])

/-- A concrete metadata checkpoint used to exercise the routine: the
vocabulary of the spec's scenario (two letters plus start/end/pad),
maximum length 10. -/
def wInfo : ModelInfo :=
  { vocab := ["A", "B", "^", "$", "_"]
  , char_to_idx := [("A", 0), ("B", 1), ("^", 2), ("$", 3), ("_", 4)]
  , idx_to_char := [(0, "A"), (1, "B"), (2, "^"), (3, "$"), (4, "_")]
  , start_token := "^"
  , end_token := "$"
  , pad_token := "_"
  , max_length := 10 }

/-- A concrete environment on which every collaborator succeeds; the
decoder alternates between a parseable and an unparseable string. -/
def wEnv : Env :=
  { config := ⟨8, 4, "cpu"⟩
  , torchLoadInfo := fun _ => Except.ok wInfo
  , torchLoadWeights := fun _ => Except.ok [("w", [1, 0])]
  , loadStateDict := fun _ _ => Except.ok ()
  , randn := fun _ c => List.replicate c 0
  , optimizeLatentVector := fun _ z _ _ => Except.ok ((0 : Rat) :: z)
  , decodeLatentVectorSample := fun _ _ _ _ _ _ _ i =>
      Except.ok (if i % 2 = 0 then "AB" else "BZ")
  , molFromSmiles := fun s => if s = "AB" then some ⟨1⟩ else none
  , computeProperty := fun s => (s.length : Rat) }

/-- A metadata checkpoint whose pad symbol is not a key of the
symbol-to-index mapping. -/
def wInfoNoPad : ModelInfo :=
  { wInfo with pad_token := "#" }

/-- An environment whose metadata checkpoint lacks the pad symbol. -/
def wEnvNoPad : Env :=
  { wEnv with torchLoadInfo := fun _ => Except.ok wInfoNoPad }

/-- An environment whose decoder raises on every call. -/
def wEnvDecodeErr : Env :=
  { wEnv with decodeLatentVectorSample := fun _ _ _ _ _ _ _ _ =>
      Except.error (Err.runtimeError "decode failed") }

/-- The result dict of a three-molecule run over `wEnv`. -/
def wD3 : DataDict :=
  ⟨["AB", "BZ", "AB"], ["Valid", "Invalid", "Valid"], [2, 2, 2]⟩

/-- The result dict of a two-molecule run over `wEnv`. -/
def wD2 : DataDict :=
  ⟨["AB", "BZ"], ["Valid", "Invalid"], [2, 2]⟩

/-- Recognizer for decode-call events. -/
def Event.isDecode : Event → Bool
  | Event.decodeCall _ _ => true
  | _ => false

/-- Recognizer for CSV-write events. -/
def Event.isWrite : Event → Bool
  | Event.writeCsv _ _ => true
  | _ => false

/-- Recognizer for latent-sampling events. -/
def Event.isRandn : Event → Bool
  | Event.randn _ _ => true
  | _ => false

/-- Recognizer for latent-optimization events. -/
def Event.isOptimize : Event → Bool
  | Event.optimize _ _ => true
  | _ => false

/-- On success, the loop extends the accumulator's three columns by one
list of decoded strings of length `k`, the validity column by the labels
computed from those same strings, and the property column by the scores
computed from those same strings. -/
theorem genLoop_ok_spec (env : Env) (model : VAE) (mi : ModelInfo) (z : LatentVec) :
    ∀ (k i : Nat) (acc d : DataDict),
      (genLoop env model mi z k i acc).1 = Except.ok d →
      ∃ s : List String,
        s.length = k ∧
        d.generated_SMILES = acc.generated_SMILES ++ s ∧
        d.validity = acc.validity ++ s.map (validLabel env) ∧
        d.qed = acc.qed ++ s.map env.computeProperty := by
  intro k
  induction k with
  | zero =>
    intro i acc d h
    simp only [genLoop, Except.ok.injEq] at h
    exact ⟨[], rfl, by simp [h], by simp [h], by simp [h]⟩
  | succ k ih =>
    intro i acc d h
    simp only [genLoop] at h
    cases hdec : env.decodeLatentVectorSample model z mi.char_to_idx mi.idx_to_char
        mi.start_token mi.end_token env.config.device i with
    | error e => rw [hdec] at h; simp at h
    | ok smiles =>
      rw [hdec] at h
      simp only at h
      obtain ⟨s, hlen, h1, h2, h3⟩ := ih (i + 1)
        (pushRow acc smiles (validLabel env smiles) (env.computeProperty smiles)) d h
      refine ⟨smiles :: s, by simp [hlen], ?_, ?_, ?_⟩
      · simpa [pushRow, List.append_assoc] using h1
      · simpa [pushRow, List.append_assoc] using h2
      · simpa [pushRow, List.append_assoc] using h3

/-- Every event the loop emits is a decode call seeded by `z`. -/
theorem genLoop_events (env : Env) (model : VAE) (mi : ModelInfo) (z : LatentVec) :
    ∀ (k i : Nat) (acc : DataDict),
      ∀ e ∈ (genLoop env model mi z k i acc).2, ∃ j, e = Event.decodeCall z j := by
  intro k
  induction k with
  | zero => intro i acc e he; simp [genLoop] at he
  | succ k ih =>
    intro i acc e he
    simp only [genLoop] at he
    cases hdec : env.decodeLatentVectorSample model z mi.char_to_idx mi.idx_to_char
        mi.start_token mi.end_token env.config.device i with
    | error er =>
      rw [hdec] at he
      simp only [List.mem_singleton] at he
      exact ⟨i, he⟩
    | ok smiles =>
      rw [hdec] at he
      simp only [List.mem_cons] at he
      rcases he with he | he
      · exact ⟨i, he⟩
      · exact ih (i + 1) _ e he

/-- On success, the loop emits exactly `k` events (one per iteration). -/
theorem genLoop_ok_length (env : Env) (model : VAE) (mi : ModelInfo) (z : LatentVec) :
    ∀ (k i : Nat) (acc d : DataDict),
      (genLoop env model mi z k i acc).1 = Except.ok d →
      (genLoop env model mi z k i acc).2.length = k := by
  intro k
  induction k with
  | zero => intro i acc d _; simp [genLoop]
  | succ k ih =>
    intro i acc d h
    simp only [genLoop] at h ⊢
    cases hdec : env.decodeLatentVectorSample model z mi.char_to_idx mi.idx_to_char
        mi.start_token mi.end_token env.config.device i with
    | error e => rw [hdec] at h; simp at h
    | ok smiles =>
      rw [hdec] at h
      dsimp only at h ⊢
      rw [List.length_cons, ih (i + 1) _ d h]

/-- If the decoder succeeds on every call of the window, the loop raises
no error. -/
theorem genLoop_ok_of_decode_ok (env : Env) (model : VAE) (mi : ModelInfo) (z : LatentVec) :
    ∀ (k i : Nat) (acc : DataDict),
      (∀ j, j < k →
        ∃ s, env.decodeLatentVectorSample model z mi.char_to_idx mi.idx_to_char
          mi.start_token mi.end_token env.config.device (i + j) = Except.ok s) →
      ∃ d, (genLoop env model mi z k i acc).1 = Except.ok d := by
  intro k
  induction k with
  | zero => intro i acc _; exact ⟨acc, rfl⟩
  | succ k ih =>
    intro i acc hall
    obtain ⟨s0, hs0⟩ := hall 0 (Nat.succ_pos k)
    rw [Nat.add_zero] at hs0
    simp only [genLoop, hs0]
    refine ih (i + 1) _ (fun j hj => ?_)
    obtain ⟨s, hs⟩ := hall (j + 1) (Nat.succ_lt_succ hj)
    exact ⟨s, by rw [show i + 1 + j = i + (j + 1) by omega]; exact hs⟩

/-- The loop never writes the output file. -/
theorem genLoop_no_write (env : Env) (model : VAE) (mi : ModelInfo) (z : LatentVec)
    (k i : Nat) (acc : DataDict) :
    ((genLoop env model mi z k i acc).2).filter Event.isWrite = [] := by
  refine List.filter_eq_nil_iff.mpr (fun e he => ?_)
  obtain ⟨j, rfl⟩ := genLoop_events env model mi z k i acc e he
  simp [Event.isWrite]

/-- Every event of the loop is a decode call, so the decode filter keeps
the loop's trace whole. -/
theorem genLoop_filter_decode (env : Env) (model : VAE) (mi : ModelInfo) (z : LatentVec)
    (k i : Nat) (acc : DataDict) :
    ((genLoop env model mi z k i acc).2).filter Event.isDecode =
      (genLoop env model mi z k i acc).2 := by
  refine List.filter_eq_self.mpr (fun e he => ?_)
  obtain ⟨j, rfl⟩ := genLoop_events env model mi z k i acc e he
  simp [Event.isDecode]

/-- Lookup in the symbol-to-index association list succeeds exactly when
the symbol is one of its keys. -/
theorem dictLookup_isSome_iff (dct : List (String × Nat)) (key : String) :
    (∃ v, dictLookup dct key = some v) ↔ key ∈ dct.map Prod.fst := by
  induction dct with
  | nil => simp [dictLookup]
  | cons q tl ih =>
    by_cases hq : q.1 = key
    · have hfind : List.find? (fun r => r.1 == key) (q :: tl) = some q :=
        List.find?_cons_of_pos tl (by simpa using hq)
      simp [dictLookup, hfind, hq]
    · have hfind : List.find? (fun r => r.1 == key) (q :: tl) =
          List.find? (fun r => r.1 == key) tl :=
        List.find?_cons_of_neg tl (by simpa using hq)
      simp only [dictLookup] at ih
      simp only [dictLookup, hfind, List.map_cons, List.mem_cons, ih]
      constructor
      · exact fun hk => Or.inr hk
      · rintro (hk | hk)
        · exact absurd hk.symm hq
        · exact hk

/-- Length of the row pairing when the three columns agree in length. -/
theorem zipRows_length :
    ∀ (a b : List String) (c : List Rat), a.length = b.length → a.length = c.length →
      (zipRows a b c).length = a.length := by
  intro a
  induction a with
  | nil => intro b c _ _; cases b <;> cases c <;> simp [zipRows]
  | cons x xs ih =>
    intro b c h1 h2
    cases b with
    | nil => simp at h1
    | cons y ys =>
      cases c with
      | nil => simp at h2
      | cons z zs =>
        simp only [zipRows, List.length_cons, Nat.succ.injEq] at h1 h2 ⊢
        exact ih ys zs h1 h2

/-- Inversion of a successful run: every loading step succeeded, the pad
lookup succeeded, the optimizer produced the latent vector the loop was
seeded with, the loop succeeded with the returned dict, and the trace is
the fixed prefix, the loop's decode calls, the single CSV write of the
returned dict and the status line, in that order. -/
theorem generate_ok_inv (env : Env) (n : Int) (dir out : String) (d : DataDict)
    (h : (generate env n dir out).1 = Except.ok d) :
    ∃ mi padIdx weights zOpt,
      env.torchLoadInfo (osPathJoin dir "model_info.pth") = Except.ok mi ∧
      dictLookup mi.char_to_idx mi.pad_token = some padIdx ∧
      env.torchLoadWeights (osPathJoin dir "vae_model.pth") = Except.ok weights ∧
      env.loadStateDict (mkModel env mi padIdx) weights = Except.ok () ∧
      env.optimizeLatentVector (mkModel env mi padIdx)
        (env.randn 1 env.config.latent_dim) 100 (1 / 100 : Rat) = Except.ok zOpt ∧
      (genLoop env (mkModel env mi padIdx) mi zOpt n.toNat 0 ⟨[], [], []⟩).1 =
        Except.ok d ∧
      (generate env n dir out).2 =
        [Event.torchLoad (osPathJoin dir "model_info.pth"),
          Event.torchLoad (osPathJoin dir "vae_model.pth"),
          Event.randn 1 env.config.latent_dim,
          Event.optimize 100 (1 / 100 : Rat)] ++
        (genLoop env (mkModel env mi padIdx) mi zOpt n.toNat 0 ⟨[], [], []⟩).2 ++
        [Event.writeCsv out (dataDictToCsv d),
          Event.printMsg ("Generated molecules saved to " ++ out)] := by
  simp only [generate] at h
  cases h1 : env.torchLoadInfo (osPathJoin dir "model_info.pth") with
  | error e => rw [h1] at h; simp at h
  | ok mi =>
    rw [h1] at h
    dsimp only at h
    cases h2 : dictLookup mi.char_to_idx mi.pad_token with
    | none => rw [h2] at h; simp at h
    | some padIdx =>
      rw [h2] at h
      dsimp only at h
      cases h3 : env.torchLoadWeights (osPathJoin dir "vae_model.pth") with
      | error e => rw [h3] at h; simp at h
      | ok weights =>
        rw [h3] at h
        dsimp only at h
        cases h4 : env.loadStateDict (mkModel env mi padIdx) weights with
        | error e => rw [h4] at h; simp at h
        | ok u =>
          cases u
          rw [h4] at h
          dsimp only at h
          cases h5 : env.optimizeLatentVector (mkModel env mi padIdx)
              (env.randn 1 env.config.latent_dim) 100 (1 / 100 : Rat) with
          | error e => rw [h5] at h; simp at h
          | ok zOpt =>
            rw [h5] at h
            dsimp only at h
            cases h6 : (genLoop env (mkModel env mi padIdx) mi zOpt n.toNat 0 ⟨[], [], []⟩).1 with
            | error e => rw [h6] at h; simp at h
            | ok dd =>
              rw [h6] at h
              dsimp only at h
              cases h
              refine ⟨mi, padIdx, weights, zOpt, rfl, h2, rfl, h4, h5, h6, ?_⟩
              simp only [generate, h1, h2, h3, h4, h5, h6]

/-- Inversion of a failed run: whatever step raised, no CSV write event
is in the trace. -/
theorem generate_error_no_write (env : Env) (n : Int) (dir out : String) (e : Err)
    (h : (generate env n dir out).1 = Except.error e) :
    ((generate env n dir out).2).filter Event.isWrite = [] := by
  simp only [generate]
  cases h1 : env.torchLoadInfo (osPathJoin dir "model_info.pth") with
  | error e1 => simp [Event.isWrite]
  | ok mi =>
    dsimp only
    cases h2 : dictLookup mi.char_to_idx mi.pad_token with
    | none => simp [Event.isWrite]
    | some padIdx =>
      dsimp only
      cases h3 : env.torchLoadWeights (osPathJoin dir "vae_model.pth") with
      | error e3 => simp [Event.isWrite]
      | ok weights =>
        dsimp only
        cases h4 : env.loadStateDict (mkModel env mi padIdx) weights with
        | error e4 => simp [Event.isWrite]
        | ok u =>
          cases u
          dsimp only
          cases h5 : env.optimizeLatentVector (mkModel env mi padIdx)
              (env.randn 1 env.config.latent_dim) 100 (1 / 100 : Rat) with
          | error e5 => simp [Event.isWrite]
          | ok zOpt =>
            dsimp only
            cases h6 : (genLoop env (mkModel env mi padIdx) mi zOpt n.toNat 0 ⟨[], [], []⟩).1 with
            | error e6 =>
              dsimp only
              rw [List.filter_append]
              rw [genLoop_no_write]
              simp [Event.isWrite]
            | ok dd =>
              exfalso
              simp only [generate, h1, h2, h3, h4, h5, h6] at h
              exact Except.noConfusion h

/-- C1: for every positive molecule count `n`, model directory and output
path on which `generate` completes without an exception, the result table
has exactly `n` rows — each returned column has `n` entries, every CSV
file written has `n` data rows, and exactly `n` decode attempts were
performed — regardless of how the validity checks came out. -/
theorem C1_result_table_row_count (env : Env) (n : Int) (dir out : String)
    (d : DataDict) (hn : 0 < n) (h : (generate env n dir out).1 = Except.ok d) :
    (d.generated_SMILES.length : Int) = n ∧
    (d.validity.length : Int) = n ∧
    (d.qed.length : Int) = n ∧
    (∀ p f, Event.writeCsv p f ∈ (generate env n dir out).2 →
      (f.rows.length : Int) = n) ∧
    ((((generate env n dir out).2).filter Event.isDecode).length : Int) = n := by
  obtain ⟨mi, padIdx, weights, zOpt, h1, h2, h3, h4, h5, h6, htr⟩ :=
    generate_ok_inv env n dir out d h
  obtain ⟨s, hlen, hg, hv, hq⟩ := genLoop_ok_spec env _ mi zOpt n.toNat 0 _ d h6
  have hgl : d.generated_SMILES.length = n.toNat := by simp [hg, hlen]
  have hvl : d.validity.length = n.toNat := by simp [hv, hlen]
  have hql : d.qed.length = n.toNat := by simp [hq, hlen]
  have hcast : ((n.toNat : Int)) = n := Int.toNat_of_nonneg (le_of_lt hn)
  refine ⟨by rw [hgl, hcast], by rw [hvl, hcast], by rw [hql, hcast], ?_, ?_⟩
  · intro p f hf
    rw [htr] at hf
    simp only [List.mem_append, List.mem_cons, List.mem_singleton] at hf
    rcases hf with (hf | hf) | hf
    · simp at hf
    · obtain ⟨j, hj⟩ := genLoop_events env _ mi zOpt n.toNat 0 _ _ hf
      exact absurd hj (by simp)
    · rcases hf with hf | hf
      · injection hf with hp hfile
        have hzl : (dataDictToCsv d).rows.length = d.generated_SMILES.length := by
          simp only [dataDictToCsv]
          exact zipRows_length _ _ _ (hgl.trans hvl.symm) (hgl.trans hql.symm)
        rw [hfile, hzl, hgl, hcast]
      · simp at hf
  · rw [htr, List.filter_append, List.filter_append, genLoop_filter_decode]
    have hll := genLoop_ok_length env (mkModel env mi padIdx) mi zOpt n.toNat 0 ⟨[], [], []⟩ d h6
    simp only [List.filter, Event.isDecode, List.length_append, hll]
    simp [hcast]

/-- C1 witness: a successful three-molecule run over the concrete
environment, with hypotheses discharged. -/
theorem C1_result_table_row_count_witness :
    (wD3.generated_SMILES.length : Int) = 3 ∧
    (wD3.validity.length : Int) = 3 ∧
    (wD3.qed.length : Int) = 3 ∧
    (∀ p f, Event.writeCsv p f ∈ (generate wEnv 3 "mdl" "out.csv").2 →
      (f.rows.length : Int) = 3) ∧
    ((((generate wEnv 3 "mdl" "out.csv").2).filter Event.isDecode).length : Int) = 3 :=
  C1_result_table_row_count wEnv 3 "mdl" "out.csv" wD3 (by decide) (by rfl)

/-- C2: whenever `generate` completes, the only write event is the single
CSV file written at the output path; its header row is exactly
`Generated_SMILES,Validity,QED` and its data-row count equals the entry
count of each sequence of the returned in-memory mapping. -/
theorem C2_file_header_and_consistency (env : Env) (n : Int) (dir out : String)
    (d : DataDict) (h : (generate env n dir out).1 = Except.ok d) :
    ((generate env n dir out).2).filter Event.isWrite =
      [Event.writeCsv out (dataDictToCsv d)] ∧
    (dataDictToCsv d).header = "Generated_SMILES,Validity,QED" ∧
    (dataDictToCsv d).rows.length = d.generated_SMILES.length ∧
    (dataDictToCsv d).rows.length = d.validity.length ∧
    (dataDictToCsv d).rows.length = d.qed.length := by
  obtain ⟨mi, padIdx, weights, zOpt, h1, h2, h3, h4, h5, h6, htr⟩ :=
    generate_ok_inv env n dir out d h
  obtain ⟨s, hlen, hg, hv, hq⟩ := genLoop_ok_spec env _ mi zOpt n.toNat 0 _ d h6
  have hgl : d.generated_SMILES.length = n.toNat := by simp [hg, hlen]
  have hvl : d.validity.length = n.toNat := by simp [hv, hlen]
  have hql : d.qed.length = n.toNat := by simp [hq, hlen]
  have hzl : (dataDictToCsv d).rows.length = d.generated_SMILES.length := by
    simp only [dataDictToCsv]
    exact zipRows_length _ _ _ (hgl.trans hvl.symm) (hgl.trans hql.symm)
  refine ⟨?_, by rfl, hzl, by rw [hzl, hgl, hvl], by rw [hzl, hgl, hql]⟩
  rw [htr, List.filter_append, List.filter_append, genLoop_no_write]
  simp [Event.isWrite]

/-- C2 witness: the write event, header and row-count consistency of a
successful three-molecule run over the concrete environment. -/
theorem C2_file_header_and_consistency_witness :
    ((generate wEnv 3 "mdl" "out.csv").2).filter Event.isWrite =
      [Event.writeCsv "out.csv" (dataDictToCsv wD3)] ∧
    (dataDictToCsv wD3).header = "Generated_SMILES,Validity,QED" ∧
    (dataDictToCsv wD3).rows.length = wD3.generated_SMILES.length ∧
    (dataDictToCsv wD3).rows.length = wD3.validity.length ∧
    (dataDictToCsv wD3).rows.length = wD3.qed.length :=
  C2_file_header_and_consistency wEnv 3 "mdl" "out.csv" wD3 (by rfl)

/-- C3: on every row of the result table, the validity label and the
property value are computed from the row's own SMILES string — the label
by parsing that exact string with the chemistry-structure parser, and it
is one of `Valid` and `Invalid`; the property by scoring that exact
string. -/
theorem C3_row_consistency (env : Env) (n : Int) (dir out : String)
    (d : DataDict) (h : (generate env n dir out).1 = Except.ok d) :
    d.validity = d.generated_SMILES.map
      (fun s => if (env.molFromSmiles s).isSome then "Valid" else "Invalid") ∧
    d.qed = d.generated_SMILES.map env.computeProperty ∧
    ∀ v ∈ d.validity, v = "Valid" ∨ v = "Invalid" := by
  obtain ⟨mi, padIdx, weights, zOpt, h1, h2, h3, h4, h5, h6, htr⟩ :=
    generate_ok_inv env n dir out d h
  obtain ⟨s, hlen, hg, hv, hq⟩ := genLoop_ok_spec env _ mi zOpt n.toNat 0 _ d h6
  simp only [List.nil_append] at hg hv hq
  subst hg
  refine ⟨by rw [hv]; rfl, by rw [hq], ?_⟩
  intro v hvmem
  rw [hv] at hvmem
  obtain ⟨s0, _, rfl⟩ := List.mem_map.mp hvmem
  by_cases hm : (env.molFromSmiles s0).isSome
  · exact Or.inl (by simp [validLabel, hm])
  · exact Or.inr (by simp [validLabel, hm])

/-- C3 witness: row consistency of a successful three-molecule run over
the concrete environment. -/
theorem C3_row_consistency_witness :
    wD3.validity = wD3.generated_SMILES.map
      (fun s => if (wEnv.molFromSmiles s).isSome then "Valid" else "Invalid") ∧
    wD3.qed = wD3.generated_SMILES.map wEnv.computeProperty ∧
    ∀ v ∈ wD3.validity, v = "Valid" ∨ v = "Invalid" :=
  C3_row_consistency wEnv 3 "mdl" "out.csv" wD3 (by rfl)

/-- C4: with molecule count 0 and successful loading, `generate` writes a
header-only file, returns three empty sequences, performs no decode
iteration, and still executes both checkpoint loads and the latent
optimization — the run's outcome and full trace are exactly these. -/
theorem C4_zero_count_boundary (env : Env) (dir out : String) (mi : ModelInfo)
    (padIdx : Nat) (weights : Weights) (zOpt : LatentVec)
    (h1 : env.torchLoadInfo (osPathJoin dir "model_info.pth") = Except.ok mi)
    (h2 : dictLookup mi.char_to_idx mi.pad_token = some padIdx)
    (h3 : env.torchLoadWeights (osPathJoin dir "vae_model.pth") = Except.ok weights)
    (h4 : env.loadStateDict (mkModel env mi padIdx) weights = Except.ok ())
    (h5 : env.optimizeLatentVector (mkModel env mi padIdx)
      (env.randn 1 env.config.latent_dim) 100 (1 / 100 : Rat) = Except.ok zOpt) :
    generate env 0 dir out =
      (Except.ok ⟨[], [], []⟩,
        [Event.torchLoad (osPathJoin dir "model_info.pth"),
          Event.torchLoad (osPathJoin dir "vae_model.pth"),
          Event.randn 1 env.config.latent_dim,
          Event.optimize 100 (1 / 100 : Rat),
          Event.writeCsv out ⟨"Generated_SMILES,Validity,QED", []⟩,
          Event.printMsg ("Generated molecules saved to " ++ out)]) := by
  simp only [generate, h1, h2, h3, h4, h5]
  rfl

/-- C4 witness: the zero-count run over the concrete environment, with
the loading hypotheses discharged. -/
theorem C4_zero_count_boundary_witness :
    generate wEnv 0 "mdl" "out.csv" =
      (Except.ok ⟨[], [], []⟩,
        [Event.torchLoad "mdl/model_info.pth",
          Event.torchLoad "mdl/vae_model.pth",
          Event.randn 1 4,
          Event.optimize 100 (1 / 100 : Rat),
          Event.writeCsv "out.csv" ⟨"Generated_SMILES,Validity,QED", []⟩,
          Event.printMsg "Generated molecules saved to out.csv"]) :=
  C4_zero_count_boundary wEnv "mdl" "out.csv" wInfo 4 [("w", [1, 0])]
    [0, 0, 0, 0, 0] (by rfl) (by rfl) (by rfl) (by rfl)
    (by rfl)

/-- C5: the latent vector is optimized once, before any decoding, and the
optimizer's output is the seed of every decode call of the run: every
decode event in the trace carries exactly that vector. -/
theorem C5_latent_vector_shared (env : Env) (n : Int) (dir out : String)
    (mi : ModelInfo) (padIdx : Nat) (weights : Weights) (zOpt : LatentVec)
    (h1 : env.torchLoadInfo (osPathJoin dir "model_info.pth") = Except.ok mi)
    (h2 : dictLookup mi.char_to_idx mi.pad_token = some padIdx)
    (h3 : env.torchLoadWeights (osPathJoin dir "vae_model.pth") = Except.ok weights)
    (h4 : env.loadStateDict (mkModel env mi padIdx) weights = Except.ok ())
    (h5 : env.optimizeLatentVector (mkModel env mi padIdx)
      (env.randn 1 env.config.latent_dim) 100 (1 / 100 : Rat) = Except.ok zOpt) :
    ∀ e ∈ (generate env n dir out).2, ∀ z i, e = Event.decodeCall z i → z = zOpt := by
  intro e he z i hei
  subst hei
  simp only [generate, h1, h2, h3, h4, h5] at he
  cases h6 : (genLoop env (mkModel env mi padIdx) mi zOpt n.toNat 0 ⟨[], [], []⟩).1 with
  | error e6 =>
    rw [h6] at he
    dsimp only at he
    rcases List.mem_append.mp he with hpre | hloop
    · simp at hpre
    · obtain ⟨j, hj⟩ := genLoop_events env _ mi zOpt n.toNat 0 _ _ hloop
      injection hj with hz hji
  | ok data =>
    rw [h6] at he
    dsimp only at he
    rcases List.mem_append.mp he with hpl | hsuf
    · rcases List.mem_append.mp hpl with hpre | hloop
      · simp at hpre
      · obtain ⟨j, hj⟩ := genLoop_events env _ mi zOpt n.toNat 0 _ _ hloop
        injection hj with hz hji
    · simp at hsuf

/-- C5 witness: the first decode event of a two-molecule run over the
concrete environment is in the trace and carries the optimized vector. -/
theorem C5_latent_vector_shared_witness :
    Event.decodeCall [0, 0, 0, 0, 0] 0 ∈ (generate wEnv 2 "mdl" "out.csv").2 ∧
    ([0, 0, 0, 0, 0] : LatentVec) = [0, 0, 0, 0, 0] :=
  have hmem : Event.decodeCall [0, 0, 0, 0, 0] 0 ∈ (generate wEnv 2 "mdl" "out.csv").2 := by
    decide
  ⟨hmem,
    C5_latent_vector_shared wEnv 2 "mdl" "out.csv" wInfo 4 [("w", [1, 0])]
      [0, 0, 0, 0, 0] (by rfl) (by rfl) (by rfl) (by rfl)
      (by rfl)
      (Event.decodeCall [0, 0, 0, 0, 0] 0) hmem [0, 0, 0, 0, 0] 0 rfl⟩

/-- C6: before any decoding, exactly one latent vector is sampled from
the normal sampler with dimensionality the configured latent size, and
the optimization is invoked with the hardcoded 100 steps and learning
rate 1/100: the trace starts with the two loads, that single sampling
event and that single optimization event, and the remainder holds no
further sampling or optimization event. -/
theorem C6_single_sample_fixed_optimization (env : Env) (n : Int) (dir out : String)
    (mi : ModelInfo) (padIdx : Nat) (weights : Weights)
    (h1 : env.torchLoadInfo (osPathJoin dir "model_info.pth") = Except.ok mi)
    (h2 : dictLookup mi.char_to_idx mi.pad_token = some padIdx)
    (h3 : env.torchLoadWeights (osPathJoin dir "vae_model.pth") = Except.ok weights)
    (h4 : env.loadStateDict (mkModel env mi padIdx) weights = Except.ok ()) :
    ∃ rest,
      (generate env n dir out).2 =
        [Event.torchLoad (osPathJoin dir "model_info.pth"),
          Event.torchLoad (osPathJoin dir "vae_model.pth"),
          Event.randn 1 env.config.latent_dim,
          Event.optimize 100 (1 / 100 : Rat)] ++ rest ∧
      ∀ e ∈ rest, Event.isRandn e = false ∧ Event.isOptimize e = false := by
  simp only [generate, h1, h2, h3, h4]
  cases h5 : env.optimizeLatentVector (mkModel env mi padIdx)
      (env.randn 1 env.config.latent_dim) 100 (1 / 100 : Rat) with
  | error e5 =>
    dsimp only
    exact ⟨[], by simp, by simp⟩
  | ok zOpt =>
    dsimp only
    cases h6 : (genLoop env (mkModel env mi padIdx) mi zOpt n.toNat 0 ⟨[], [], []⟩).1 with
    | error e6 =>
      dsimp only
      refine ⟨(genLoop env (mkModel env mi padIdx) mi zOpt n.toNat 0 ⟨[], [], []⟩).2,
        by simp, ?_⟩
      intro e he
      obtain ⟨j, rfl⟩ := genLoop_events env _ mi zOpt n.toNat 0 _ _ he
      simp [Event.isRandn, Event.isOptimize]
    | ok data =>
      dsimp only
      refine ⟨(genLoop env (mkModel env mi padIdx) mi zOpt n.toNat 0 ⟨[], [], []⟩).2 ++
        [Event.writeCsv out (dataDictToCsv data),
          Event.printMsg ("Generated molecules saved to " ++ out)], by simp, ?_⟩
      intro e he
      simp only [List.mem_append, List.mem_cons, List.not_mem_nil, or_false] at he
      rcases he with he | he | he
      · obtain ⟨j, rfl⟩ := genLoop_events env _ mi zOpt n.toNat 0 _ _ he
        simp [Event.isRandn, Event.isOptimize]
      · subst he; exact ⟨rfl, rfl⟩
      · subst he; exact ⟨rfl, rfl⟩

/-- C6 witness: the one-molecule run over the concrete environment, with
the loading hypotheses discharged. -/
theorem C6_single_sample_fixed_optimization_witness :
    ∃ rest,
      (generate wEnv 1 "mdl" "out.csv").2 =
        [Event.torchLoad "mdl/model_info.pth",
          Event.torchLoad "mdl/vae_model.pth",
          Event.randn 1 4,
          Event.optimize 100 (1 / 100 : Rat)] ++ rest ∧
      ∀ e ∈ rest, Event.isRandn e = false ∧ Event.isOptimize e = false :=
  C6_single_sample_fixed_optimization wEnv 1 "mdl" "out.csv" wInfo 4
    [("w", [1, 0])] (by rfl) (by rfl) (by rfl) (by rfl)

/-- C7: an unparseable decoded string is not an error: as long as the
decoder itself returns a string on every call, the run completes without
an exception whatever the parser says, every iteration appends its row,
and a row whose string fails the parse carries the `Invalid` label. -/
theorem C7_unparseable_is_not_an_error (env : Env) (n : Int) (dir out : String)
    (mi : ModelInfo) (padIdx : Nat) (weights : Weights) (zOpt : LatentVec)
    (h1 : env.torchLoadInfo (osPathJoin dir "model_info.pth") = Except.ok mi)
    (h2 : dictLookup mi.char_to_idx mi.pad_token = some padIdx)
    (h3 : env.torchLoadWeights (osPathJoin dir "vae_model.pth") = Except.ok weights)
    (h4 : env.loadStateDict (mkModel env mi padIdx) weights = Except.ok ())
    (h5 : env.optimizeLatentVector (mkModel env mi padIdx)
      (env.randn 1 env.config.latent_dim) 100 (1 / 100 : Rat) = Except.ok zOpt)
    (hdec : ∀ i, i < n.toNat →
      ∃ s, env.decodeLatentVectorSample (mkModel env mi padIdx) zOpt mi.char_to_idx
        mi.idx_to_char mi.start_token mi.end_token env.config.device i = Except.ok s) :
    ∃ d, (generate env n dir out).1 = Except.ok d ∧
      d.generated_SMILES.length = n.toNat ∧
      d.validity = d.generated_SMILES.map
        (fun s => if (env.molFromSmiles s).isSome then "Valid" else "Invalid") := by
  obtain ⟨d, hd⟩ := genLoop_ok_of_decode_ok env (mkModel env mi padIdx) mi zOpt
    n.toNat 0 ⟨[], [], []⟩ (fun j hj => by simpa using hdec j hj)
  obtain ⟨s, hlen, hg, hv, hq⟩ := genLoop_ok_spec env _ mi zOpt n.toNat 0 _ d hd
  simp only [List.nil_append] at hg hv
  refine ⟨d, ?_, by simp [hg, hlen], by rw [hv, hg]; rfl⟩
  simp only [generate, h1, h2, h3, h4, h5, hd]

/-- C7 witness: the two-molecule run over the concrete environment, whose
second decoded string fails the parse, with hypotheses discharged. -/
theorem C7_unparseable_is_not_an_error_witness :
    ∃ d, (generate wEnv 2 "mdl" "out.csv").1 = Except.ok d ∧
      d.generated_SMILES.length = (2 : Int).toNat ∧
      d.validity = d.generated_SMILES.map
        (fun s => if (wEnv.molFromSmiles s).isSome then "Valid" else "Invalid") :=
  C7_unparseable_is_not_an_error wEnv 2 "mdl" "out.csv" wInfo 4 [("w", [1, 0])]
    [0, 0, 0, 0, 0] (by rfl) (by rfl) (by rfl) (by rfl)
    (by rfl)
    (fun i _ => ⟨if i % 2 = 0 then "AB" else "BZ", rfl⟩)

/-- A zero-count run performs no decode call, whatever its outcome. -/
theorem generate_zero_no_decode (env : Env) (dir out : String) :
    ((generate env 0 dir out).2).filter Event.isDecode = [] := by
  simp only [generate]
  cases h1 : env.torchLoadInfo (osPathJoin dir "model_info.pth") with
  | error e1 => simp [Event.isDecode]
  | ok mi =>
    dsimp only
    cases h2 : dictLookup mi.char_to_idx mi.pad_token with
    | none => simp [Event.isDecode]
    | some padIdx =>
      dsimp only
      cases h3 : env.torchLoadWeights (osPathJoin dir "vae_model.pth") with
      | error e3 => simp [Event.isDecode]
      | ok weights =>
        dsimp only
        cases h4 : env.loadStateDict (mkModel env mi padIdx) weights with
        | error e4 => simp [Event.isDecode]
        | ok u =>
          cases u
          dsimp only
          cases h5 : env.optimizeLatentVector (mkModel env mi padIdx)
              (env.randn 1 env.config.latent_dim) 100 (1 / 100 : Rat) with
          | error e5 => simp [Event.isDecode]
          | ok zOpt => simp [genLoop, dataDictToCsv, zipRows, Event.isDecode]

/-- C8: the result table is persisted exactly once and only at the end of
a successful run — on any failure no CSV write event exists; on success
the trace ends with the single write of the full table followed by the
status line, and no earlier write exists; and an error the decode loop
raises is the routine's own result, propagated unmodified. -/
theorem C8_single_terminal_persistence (env : Env) (n : Int) (dir out : String) :
    (∀ e, (generate env n dir out).1 = Except.error e →
      ((generate env n dir out).2).filter Event.isWrite = []) ∧
    (∀ d, (generate env n dir out).1 = Except.ok d →
      ∃ t1, (generate env n dir out).2 =
          t1 ++ [Event.writeCsv out (dataDictToCsv d),
            Event.printMsg ("Generated molecules saved to " ++ out)] ∧
        t1.filter Event.isWrite = []) ∧
    (∀ mi padIdx weights zOpt e,
      env.torchLoadInfo (osPathJoin dir "model_info.pth") = Except.ok mi →
      dictLookup mi.char_to_idx mi.pad_token = some padIdx →
      env.torchLoadWeights (osPathJoin dir "vae_model.pth") = Except.ok weights →
      env.loadStateDict (mkModel env mi padIdx) weights = Except.ok () →
      env.optimizeLatentVector (mkModel env mi padIdx)
        (env.randn 1 env.config.latent_dim) 100 (1 / 100 : Rat) = Except.ok zOpt →
      (genLoop env (mkModel env mi padIdx) mi zOpt n.toNat 0 ⟨[], [], []⟩).1 =
        Except.error e →
      (generate env n dir out).1 = Except.error e) := by
  refine ⟨fun e he => generate_error_no_write env n dir out e he, ?_, ?_⟩
  · intro d hd
    obtain ⟨mi, padIdx, weights, zOpt, h1, h2, h3, h4, h5, h6, htr⟩ :=
      generate_ok_inv env n dir out d hd
    refine ⟨[Event.torchLoad (osPathJoin dir "model_info.pth"),
        Event.torchLoad (osPathJoin dir "vae_model.pth"),
        Event.randn 1 env.config.latent_dim,
        Event.optimize 100 (1 / 100 : Rat)] ++
      (genLoop env (mkModel env mi padIdx) mi zOpt n.toNat 0 ⟨[], [], []⟩).2, ?_, ?_⟩
    · rw [htr]
    · rw [List.filter_append, genLoop_no_write]
      simp [Event.isWrite]
  · intro mi padIdx weights zOpt e h1 h2 h3 h4 h5 h6
    simp only [generate, h1, h2, h3, h4, h5, h6]

/-- C8 witness: a run whose decoder raises leaves no write event and
returns that very error; a successful run's trace ends with its single
write and the status line. -/
theorem C8_single_terminal_persistence_witness :
    ((generate wEnvDecodeErr 1 "mdl" "out.csv").2).filter Event.isWrite = [] ∧
    (generate wEnvDecodeErr 1 "mdl" "out.csv").1 =
      Except.error (Err.runtimeError "decode failed") ∧
    (∃ t1, (generate wEnv 2 "mdl" "out.csv").2 =
        t1 ++ [Event.writeCsv "out.csv" (dataDictToCsv wD2),
          Event.printMsg "Generated molecules saved to out.csv"] ∧
      t1.filter Event.isWrite = []) := by
  have h := C8_single_terminal_persistence wEnvDecodeErr 1 "mdl" "out.csv"
  have herr : (generate wEnvDecodeErr 1 "mdl" "out.csv").1 =
      Except.error (Err.runtimeError "decode failed") :=
    h.2.2 wInfo 4 [("w", [1, 0])] [0, 0, 0, 0, 0] (Err.runtimeError "decode failed")
      (by rfl) (by rfl) (by rfl) (by rfl)
      (by rfl)
      (by rfl)
  exact ⟨h.1 (Err.runtimeError "decode failed") herr, herr,
    (C8_single_terminal_persistence wEnv 2 "mdl" "out.csv").2.1 wD2 (by rfl)⟩

/-- C9: implicit behaviour on a non-positive count: the run is exactly
the count-0 run — the loop body runs zero times, so no decode event is
emitted, and a successful run returns three empty sequences and writes a
row-less (header-only) file. -/
theorem C9_nonpositive_count (env : Env) (n : Int) (dir out : String) (hn : n ≤ 0) :
    generate env n dir out = generate env 0 dir out ∧
    ((generate env n dir out).2).filter Event.isDecode = [] ∧
    (∀ d, (generate env n dir out).1 = Except.ok d → d = ⟨[], [], []⟩ ∧
      ∀ p f, Event.writeCsv p f ∈ (generate env n dir out).2 → f.rows = []) := by
  have hto : n.toNat = (0 : Int).toNat := by omega
  have heq : generate env n dir out = generate env 0 dir out := by
    unfold generate
    rw [hto]
  refine ⟨heq, by rw [heq]; exact generate_zero_no_decode env dir out, ?_⟩
  intro d hd
  obtain ⟨mi, padIdx, weights, zOpt, h1, h2, h3, h4, h5, h6, htr⟩ :=
    generate_ok_inv env n dir out d hd
  obtain ⟨s, hlen, hg, hv, hq⟩ := genLoop_ok_spec env _ mi zOpt n.toNat 0 _ d h6
  rw [hto] at hlen
  have hs : s = [] := List.length_eq_zero.mp hlen
  subst hs
  simp only [List.map_nil, List.append_nil, List.nil_append] at hg hv hq
  have hd0 : d = ⟨[], [], []⟩ := by
    cases d
    simp_all
  refine ⟨hd0, ?_⟩
  intro p f hf
  rw [htr] at hf
  rcases List.mem_append.mp hf with hpl | hsuf
  · rcases List.mem_append.mp hpl with hpre | hloop
    · simp at hpre
    · obtain ⟨j, hj⟩ := genLoop_events env _ mi zOpt n.toNat 0 _ _ hloop
      exact absurd hj (by simp)
  · simp only [List.mem_cons, List.not_mem_nil, or_false] at hsuf
    rcases hsuf with hsuf | hsuf
    · injection hsuf with hp hfile
      rw [hfile, hd0]
      rfl
    · exact absurd hsuf (by simp)

/-- C9 witness: a run with count −5 over the concrete environment equals
the count-0 run, emits no decode event, and its returned dict is empty
with a row-less written file. -/
theorem C9_nonpositive_count_witness :
    generate wEnv (-5) "mdl" "out.csv" = generate wEnv 0 "mdl" "out.csv" ∧
    ((generate wEnv (-5) "mdl" "out.csv").2).filter Event.isDecode = [] ∧
    (∀ d, (generate wEnv (-5) "mdl" "out.csv").1 = Except.ok d → d = ⟨[], [], []⟩ ∧
      ∀ p f, Event.writeCsv p f ∈ (generate wEnv (-5) "mdl" "out.csv").2 →
        f.rows = []) :=
  C9_nonpositive_count wEnv (-5) "mdl" "out.csv" (by decide)

/-- C10: the pad symbol must be a key of the symbol-to-index mapping:
lookup succeeds exactly when it is a key; when it succeeds the routine
goes on to load the weights checkpoint; when the pad symbol is absent the
routine fails at that lookup with a key error, after only the metadata
load — before the weights load and before any decoding. -/
theorem C10_pad_symbol_lookup (env : Env) (n : Int) (dir out : String) (mi : ModelInfo)
    (h1 : env.torchLoadInfo (osPathJoin dir "model_info.pth") = Except.ok mi) :
    ((∃ padIdx, dictLookup mi.char_to_idx mi.pad_token = some padIdx) ↔
      mi.pad_token ∈ mi.char_to_idx.map Prod.fst) ∧
    (∀ padIdx, dictLookup mi.char_to_idx mi.pad_token = some padIdx →
      Event.torchLoad (osPathJoin dir "vae_model.pth") ∈ (generate env n dir out).2) ∧
    (dictLookup mi.char_to_idx mi.pad_token = none →
      generate env n dir out =
        (Except.error (Err.keyError mi.pad_token),
          [Event.torchLoad (osPathJoin dir "model_info.pth")])) := by
  refine ⟨dictLookup_isSome_iff mi.char_to_idx mi.pad_token, ?_, ?_⟩
  · intro padIdx hPad
    simp only [generate, h1, hPad]
    cases h3 : env.torchLoadWeights (osPathJoin dir "vae_model.pth") with
    | error e3 => simp
    | ok weights =>
      dsimp only
      cases h4 : env.loadStateDict (mkModel env mi padIdx) weights with
      | error e4 => simp
      | ok u =>
        cases u
        dsimp only
        cases h5 : env.optimizeLatentVector (mkModel env mi padIdx)
            (env.randn 1 env.config.latent_dim) 100 (1 / 100 : Rat) with
        | error e5 => simp
        | ok zOpt =>
          dsimp only
          cases h6 : (genLoop env (mkModel env mi padIdx) mi zOpt n.toNat 0 ⟨[], [], []⟩).1 with
          | error e6 => simp
          | ok data => simp
  · intro hnone
    simp only [generate, h1, hnone]

/-- C10 witness: with the pad symbol absent the run stops at the lookup
with a key error after only the metadata load; with it present the
weights checkpoint load is reached. -/
theorem C10_pad_symbol_lookup_witness :
    generate wEnvNoPad 3 "mdl" "out.csv" =
      (Except.error (Err.keyError "#"), [Event.torchLoad "mdl/model_info.pth"]) ∧
    Event.torchLoad "mdl/vae_model.pth" ∈ (generate wEnv 3 "mdl" "out.csv").2 :=
  ⟨(C10_pad_symbol_lookup wEnvNoPad 3 "mdl" "out.csv" wInfoNoPad (by rfl)).2.2 (by rfl),
    (C10_pad_symbol_lookup wEnv 3 "mdl" "out.csv" wInfo (by rfl)).2.1 4 (by rfl)⟩

end DMG
